import Mathlib

/-!
Verification of `src/config/settings.py` (remnawave-tg-shop configuration
component): shallow embedding of the pydantic `Settings` model, its computed
fields, the environment-source binding/validation step, and the module-level
`get_settings` registry accessor.

Python strings are Lean `String`, Python `int` is `Int`, Python `float` is
modelled as `ℚ` (every concrete value the properties exercise is exactly
representable), `Optional[T]` is `Option T`, and `Dict[int, T]` built by
insertion is an ordered association list `List (Int × T)`.
-/

/-- Python `str.split(sep)` for a single-character separator, on the
character list: `""` splits to `[""]`, and consecutive separators produce
empty pieces (no merging). -/
def pySplitChar (sep : Char) : List Char → List (List Char)
  | [] => [[]]
  | c :: rest =>
    let r := pySplitChar sep rest
    if c = sep then [] :: r
    else
      match r with
      | h :: t => (c :: h) :: t
      | [] => [[c]]

/-- Python `str.split(',')` as a `String` operation. -/
def pySplit (s : String) : List String :=
  (pySplitChar ',' s.toList).map fun cs => String.mk cs

/-- Python `str.strip()`: remove leading and trailing whitespace. -/
def pyStrip (s : String) : String :=
  String.mk
    (((s.toList.dropWhile Char.isWhitespace).reverse.dropWhile
      Char.isWhitespace).reverse)

/-- Python truthiness of a string: true iff non-empty. -/
def pyTruthy (s : String) : Bool :=
  !s.toList.isEmpty

/-- Python `str.isdigit()` restricted to ASCII: true iff the string is
non-empty and every character is a decimal digit.  In particular `""`,
`"-5"` and `"+5"` are not digit strings. -/
def pyIsDigit (s : String) : Bool :=
  pyTruthy s && s.toList.all Char.isDigit

/-- Python `int(t)` on a string that passed `isdigit`: the base-10 value of
the digit characters (necessarily non-negative). -/
def digitsToInt (s : String) : Int :=
  (s.toList.foldl (fun a c => a * 10 + (c.toNat - 48)) 0 : Nat)

/-- Python `str.rstrip('/')`: drop every trailing `/` character. -/
def rstripSlash (s : String) : String :=
  String.mk (s.toList.reverse.dropWhile (fun c => c = '/')).reverse

/-- The `Settings(BaseSettings)` model of `src/config/settings.py`,
field for field in declaration order, with the declared defaults.
`BOT_TOKEN` is the only field with no default (required).  The alias
declarations themselves live in `settingsSchema` below, which models the
binding of raw environment keys to these fields. -/
structure Settings where
  BOT_TOKEN : String
  ADMIN_IDS_STR : String := ""
  POSTGRES_USER : String := "user"
  POSTGRES_PASSWORD : String := "password"
  POSTGRES_HOST : String := "localhost"
  POSTGRES_PORT : Int := 5432
  POSTGRES_DB : String := "vpn_shop_db"
  DEFAULT_LANGUAGE : String := "ru"
  DEFAULT_CURRENCY_SYMBOL : String := "RUB"
  SUPPORT_LINK : Option String := none
  SERVER_STATUS_URL : Option String := none
  TERMS_OF_SERVICE_URL : Option String := none
  YOOKASSA_SHOP_ID : Option String := none
  YOOKASSA_SECRET_KEY : Option String := none
  YOOKASSA_WEBHOOK_BASE_URL : Option String := none
  YOOKASSA_RETURN_URL : Option String := none
  YOOKASSA_DEFAULT_RECEIPT_EMAIL : Option String := none
  YOOKASSA_VAT_CODE : Int := 1
  YOOKASSA_PAYMENT_MODE : String := "full_prepayment"
  YOOKASSA_PAYMENT_SUBJECT : String := "service"
  TELEGRAM_WEBHOOK_BASE_URL : Option String := none
  PRICE_1_MONTH : Option Int := none
  PRICE_3_MONTHS : Option Int := none
  PRICE_6_MONTHS : Option Int := none
  PRICE_12_MONTHS : Option Int := none
  SUBSCRIPTION_EXPIRATION_NOTIFICATION_DAYS : Int := 7
  SUBSCRIPTION_NOTIFICATION_HOUR_UTC : Int := 9
  SUBSCRIPTION_NOTIFICATION_MINUTE_UTC : Int := 0
  REFERRAL_BONUS_DAYS_INVITER_1_MONTH : Option Int := some 3
  REFERRAL_BONUS_DAYS_INVITER_3_MONTHS : Option Int := some 7
  REFERRAL_BONUS_DAYS_INVITER_6_MONTHS : Option Int := some 15
  REFERRAL_BONUS_DAYS_INVITER_12_MONTHS : Option Int := some 30
  REFERRAL_BONUS_DAYS_REFEREE_1_MONTH : Option Int := some 1
  REFERRAL_BONUS_DAYS_REFEREE_3_MONTHS : Option Int := some 3
  REFERRAL_BONUS_DAYS_REFEREE_6_MONTHS : Option Int := some 7
  REFERRAL_BONUS_DAYS_REFEREE_12_MONTHS : Option Int := some 15
  PANEL_API_URL : Option String := none
  PANEL_API_KEY : Option String := none
  PANEL_USER_DEFAULT_EXPIRE_DAYS : Int := 1
  PANEL_USER_DEFAULT_TRAFFIC_BYTES : Int := 0
  PANEL_USER_DEFAULT_TRAFFIC_STRATEGY : String := "NO_RESET"
  PANEL_USER_DEFAULT_INBOUND_UUIDS : Option String := none
  TRIAL_ENABLED : Bool := true
  TRIAL_DURATION_DAYS : Int := 3
  TRIAL_TRAFFIC_LIMIT_GB : Option ℚ := some 5
  WEB_SERVER_HOST : String := "0.0.0.0"
  WEB_SERVER_PORT : Int := 8080
  LOGS_PAGE_SIZE : Int := 10

/-- `DATABASE_URL` computed field: f-string interpolation of the postgres
connection parameters, no escaping. -/
def Settings.DATABASE_URL (s : Settings) : String :=
  "postgresql+asyncpg://" ++ s.POSTGRES_USER ++ ":" ++ s.POSTGRES_PASSWORD
    ++ "@" ++ s.POSTGRES_HOST ++ ":" ++ toString s.POSTGRES_PORT
    ++ "/" ++ s.POSTGRES_DB

/-- `ADMIN_IDS` computed field: if `ADMIN_IDS_STR` is truthy (non-empty),
split on `','`, strip each element, keep those satisfying `isdigit`, and
convert each kept element with `int`.  Empty string yields `[]`.  (The
source's `except ValueError` branch is unreachable because `isdigit`
guarantees that `int` succeeds.) -/
def Settings.ADMIN_IDS (s : Settings) : List Int :=
  if pyTruthy s.ADMIN_IDS_STR then
    (pySplit s.ADMIN_IDS_STR).filterMap fun t =>
      if pyIsDigit (pyStrip t) then some (digitsToInt (pyStrip t)) else none
  else []

/-- `PRIMARY_ADMIN_ID` computed field: `ids[0] if ids else None`. -/
def Settings.PRIMARY_ADMIN_ID (s : Settings) : Option Int :=
  match s.ADMIN_IDS with
  | [] => none
  | x :: _ => some x

/-- `trial_traffic_limit_bytes` computed field: `0` when
`TRIAL_TRAFFIC_LIMIT_GB` is `None` or `≤ 0`, otherwise
`int(gb * 1024**3)` (truncation of a positive value = floor). -/
def Settings.trial_traffic_limit_bytes (s : Settings) : Int :=
  match s.TRIAL_TRAFFIC_LIMIT_GB with
  | none => 0
  | some g => if g ≤ 0 then 0 else ⌊g * (1024 : ℚ) ^ 3⌋

/-- `parsed_default_panel_user_inbound_uuids` computed field: split on `','`,
strip, drop empties; `None` when the raw field is falsy. -/
def Settings.parsed_default_panel_user_inbound_uuids (s : Settings) :
    Option (List String) :=
  match s.PANEL_USER_DEFAULT_INBOUND_UUIDS with
  | none => none
  | some raw =>
    if pyTruthy raw then
      some ((pySplit raw).filterMap fun u =>
        if pyTruthy (pyStrip u) then some (pyStrip u) else none)
    else none

/-- `yookassa_webhook_path` computed field: the fixed suffix. -/
def Settings.yookassa_webhook_path (_ : Settings) : String :=
  "/webhook/yookassa"

/-- `yookassa_full_webhook_url` computed field: when the base URL is truthy
(present and non-empty), the base with trailing `/` stripped concatenated
with the fixed path; otherwise `None`. -/
def Settings.yookassa_full_webhook_url (s : Settings) : Option String :=
  match s.YOOKASSA_WEBHOOK_BASE_URL with
  | none => none
  | some b =>
    if pyTruthy b then some (rstripSlash b ++ s.yookassa_webhook_path)
    else none

/-- `subscription_options` computed field: a dict built by inserting, for
each of the tiers 1/3/6/12 whose `PRICE_*` field is not `None`, the value
`float(price / 100.0)`.  Modelled as the ordered association list of the
insertions performed. -/
def Settings.subscription_options (s : Settings) : List (Int × ℚ) :=
  (match s.PRICE_1_MONTH with
    | some p => [(1, (p : ℚ) / 100)]
    | none => [])
  ++ (match s.PRICE_3_MONTHS with
    | some p => [(3, (p : ℚ) / 100)]
    | none => [])
  ++ (match s.PRICE_6_MONTHS with
    | some p => [(6, (p : ℚ) / 100)]
    | none => [])
  ++ (match s.PRICE_12_MONTHS with
    | some p => [(12, (p : ℚ) / 100)]
    | none => [])

/-- `referral_bonus_inviter` computed field. -/
def Settings.referral_bonus_inviter (s : Settings) : List (Int × Int) :=
  (match s.REFERRAL_BONUS_DAYS_INVITER_1_MONTH with
    | some d => [(1, d)] | none => [])
  ++ (match s.REFERRAL_BONUS_DAYS_INVITER_3_MONTHS with
    | some d => [(3, d)] | none => [])
  ++ (match s.REFERRAL_BONUS_DAYS_INVITER_6_MONTHS with
    | some d => [(6, d)] | none => [])
  ++ (match s.REFERRAL_BONUS_DAYS_INVITER_12_MONTHS with
    | some d => [(12, d)] | none => [])

/-- `referral_bonus_referee` computed field. -/
def Settings.referral_bonus_referee (s : Settings) : List (Int × Int) :=
  (match s.REFERRAL_BONUS_DAYS_REFEREE_1_MONTH with
    | some d => [(1, d)] | none => [])
  ++ (match s.REFERRAL_BONUS_DAYS_REFEREE_3_MONTHS with
    | some d => [(3, d)] | none => [])
  ++ (match s.REFERRAL_BONUS_DAYS_REFEREE_6_MONTHS with
    | some d => [(6, d)] | none => [])
  ++ (match s.REFERRAL_BONUS_DAYS_REFEREE_12_MONTHS with
    | some d => [(12, d)] | none => [])

/-- A concrete settings value: the declared defaults with a token supplied
for the one required field. -/
def defaultSettings : Settings := { BOT_TOKEN := "token" }

/-! ## Environment binding and validation

`Settings()` binds raw environment key/value pairs to the declared fields.
For each field, pydantic-settings looks the raw source up first under the
field's validation alias (when one is declared) and then — because
`populate_by_name=True` — under the field name itself; the first key found
wins.  A required field with no matching key contributes a
`missing`-category error; a found value that fails coercion to the field's
declared type contributes a type-error.  All errors across the whole model
are collected into one `ValidationError` (never only the first). -/

/-- The declared target type of a field, as far as coercion from a raw
string is concerned (`Optional[T]` coerces like `T` once a key is found). -/
inductive FType where
  | tStr
  | tOptStr
  | tInt
  | tOptInt
  | tFloat
  | tOptFloat
  | tBool
  deriving DecidableEq

/-- One declared field of the `Settings` model: canonical name, optional
validation alias, whether it is required (no default), and its type. -/
structure FieldSpec where
  name : String
  aliasName : Option String
  required : Bool
  ftype : FType
  deriving DecidableEq

/-- A signed base-10 integer token: optional `+`/`-` sign followed by at
least one digit. -/
def intTokenOk (cs : List Char) : Bool :=
  match cs with
  | '-' :: rest => !rest.isEmpty && rest.all Char.isDigit
  | '+' :: rest => !rest.isEmpty && rest.all Char.isDigit
  | _ => !cs.isEmpty && cs.all Char.isDigit

/-- A base-10 decimal token: optional sign, at least one digit, at most one
`.` (the plain decimal forms; scientific-exponent forms are not exercised
by any property). -/
def floatTokenOk (cs : List Char) : Bool :=
  let body :=
    match cs with
    | '-' :: rest => rest
    | '+' :: rest => rest
    | _ => cs
  body.any Char.isDigit
    && body.all (fun c => c.isDigit || c = '.')
    && (body.filter (fun c => c = '.')).length ≤ 1

/-- The boolean tokens pydantic accepts from a string, case-insensitively. -/
def boolTokenOk (cs : List Char) : Bool :=
  let w := String.mk (cs.map Char.toLower)
  [ "true", "false", "t", "f", "y", "n", "yes", "no", "on", "off",
    "1", "0" ].contains w

/-- Whether a raw string value coerces successfully to the given type
(surrounding whitespace is tolerated). -/
def coerceOk (t : FType) (v : String) : Bool :=
  match t with
  | .tStr | .tOptStr => true
  | .tInt | .tOptInt => intTokenOk (pyStrip v).toList
  | .tFloat | .tOptFloat => floatTokenOk (pyStrip v).toList
  | .tBool => boolTokenOk (pyStrip v).toList

/-- The `ADMIN_IDS_STR` field declaration: optional string, default `""`,
validation alias `ADMIN_IDS`. -/
def adminIdsStrSpec : FieldSpec :=
  { name := "ADMIN_IDS_STR", aliasName := some "ADMIN_IDS",
    required := false, ftype := .tStr }

/-- The full declared schema of the `Settings` model, in declaration order:
every field of the class with its alias (when declared with
`Field(alias=...)`), required flag (`BOT_TOKEN` is the only field without a
default) and coercion type. -/
def settingsSchema : List FieldSpec :=
  [ { name := "BOT_TOKEN", aliasName := none, required := true,
      ftype := .tStr },
    adminIdsStrSpec,
    { name := "POSTGRES_USER", aliasName := none, required := false,
      ftype := .tStr },
    { name := "POSTGRES_PASSWORD", aliasName := none, required := false,
      ftype := .tStr },
    { name := "POSTGRES_HOST", aliasName := none, required := false,
      ftype := .tStr },
    { name := "POSTGRES_PORT", aliasName := none, required := false,
      ftype := .tInt },
    { name := "POSTGRES_DB", aliasName := none, required := false,
      ftype := .tStr },
    { name := "DEFAULT_LANGUAGE", aliasName := none, required := false,
      ftype := .tStr },
    { name := "DEFAULT_CURRENCY_SYMBOL", aliasName := none,
      required := false, ftype := .tStr },
    { name := "SUPPORT_LINK", aliasName := none, required := false,
      ftype := .tOptStr },
    { name := "SERVER_STATUS_URL", aliasName := none, required := false,
      ftype := .tOptStr },
    { name := "TERMS_OF_SERVICE_URL", aliasName := none, required := false,
      ftype := .tOptStr },
    { name := "YOOKASSA_SHOP_ID", aliasName := none, required := false,
      ftype := .tOptStr },
    { name := "YOOKASSA_SECRET_KEY", aliasName := none, required := false,
      ftype := .tOptStr },
    { name := "YOOKASSA_WEBHOOK_BASE_URL", aliasName := none,
      required := false, ftype := .tOptStr },
    { name := "YOOKASSA_RETURN_URL", aliasName := none, required := false,
      ftype := .tOptStr },
    { name := "YOOKASSA_DEFAULT_RECEIPT_EMAIL", aliasName := none,
      required := false, ftype := .tOptStr },
    { name := "YOOKASSA_VAT_CODE", aliasName := none, required := false,
      ftype := .tInt },
    { name := "YOOKASSA_PAYMENT_MODE", aliasName := none, required := false,
      ftype := .tStr },
    { name := "YOOKASSA_PAYMENT_SUBJECT", aliasName := none,
      required := false, ftype := .tStr },
    { name := "TELEGRAM_WEBHOOK_BASE_URL", aliasName := none,
      required := false, ftype := .tOptStr },
    { name := "PRICE_1_MONTH", aliasName := none, required := false,
      ftype := .tOptInt },
    { name := "PRICE_3_MONTHS", aliasName := none, required := false,
      ftype := .tOptInt },
    { name := "PRICE_6_MONTHS", aliasName := none, required := false,
      ftype := .tOptInt },
    { name := "PRICE_12_MONTHS", aliasName := none, required := false,
      ftype := .tOptInt },
    { name := "SUBSCRIPTION_EXPIRATION_NOTIFICATION_DAYS",
      aliasName := none, required := false, ftype := .tInt },
    { name := "SUBSCRIPTION_NOTIFICATION_HOUR_UTC", aliasName := none,
      required := false, ftype := .tInt },
    { name := "SUBSCRIPTION_NOTIFICATION_MINUTE_UTC", aliasName := none,
      required := false, ftype := .tInt },
    { name := "REFERRAL_BONUS_DAYS_INVITER_1_MONTH",
      aliasName := some "REFERRAL_BONUS_DAYS_1_MONTH", required := false,
      ftype := .tOptInt },
    { name := "REFERRAL_BONUS_DAYS_INVITER_3_MONTHS",
      aliasName := some "REFERRAL_BONUS_DAYS_3_MONTHS", required := false,
      ftype := .tOptInt },
    { name := "REFERRAL_BONUS_DAYS_INVITER_6_MONTHS",
      aliasName := some "REFERRAL_BONUS_DAYS_6_MONTHS", required := false,
      ftype := .tOptInt },
    { name := "REFERRAL_BONUS_DAYS_INVITER_12_MONTHS",
      aliasName := some "REFERRAL_BONUS_DAYS_12_MONTHS", required := false,
      ftype := .tOptInt },
    { name := "REFERRAL_BONUS_DAYS_REFEREE_1_MONTH",
      aliasName := some "REFEREE_BONUS_DAYS_1_MONTH", required := false,
      ftype := .tOptInt },
    { name := "REFERRAL_BONUS_DAYS_REFEREE_3_MONTHS",
      aliasName := some "REFEREE_BONUS_DAYS_3_MONTHS", required := false,
      ftype := .tOptInt },
    { name := "REFERRAL_BONUS_DAYS_REFEREE_6_MONTHS",
      aliasName := some "REFEREE_BONUS_DAYS_6_MONTHS", required := false,
      ftype := .tOptInt },
    { name := "REFERRAL_BONUS_DAYS_REFEREE_12_MONTHS",
      aliasName := some "REFEREE_BONUS_DAYS_12_MONTHS", required := false,
      ftype := .tOptInt },
    { name := "PANEL_API_URL", aliasName := none, required := false,
      ftype := .tOptStr },
    { name := "PANEL_API_KEY", aliasName := none, required := false,
      ftype := .tOptStr },
    { name := "PANEL_USER_DEFAULT_EXPIRE_DAYS", aliasName := none,
      required := false, ftype := .tInt },
    { name := "PANEL_USER_DEFAULT_TRAFFIC_BYTES", aliasName := none,
      required := false, ftype := .tInt },
    { name := "PANEL_USER_DEFAULT_TRAFFIC_STRATEGY", aliasName := none,
      required := false, ftype := .tStr },
    { name := "PANEL_USER_DEFAULT_INBOUND_UUIDS", aliasName := none,
      required := false, ftype := .tOptStr },
    { name := "TRIAL_ENABLED", aliasName := none, required := false,
      ftype := .tBool },
    { name := "TRIAL_DURATION_DAYS", aliasName := none, required := false,
      ftype := .tInt },
    { name := "TRIAL_TRAFFIC_LIMIT_GB", aliasName := none,
      required := false, ftype := .tOptFloat },
    { name := "WEB_SERVER_HOST", aliasName := none, required := false,
      ftype := .tStr },
    { name := "WEB_SERVER_PORT", aliasName := none, required := false,
      ftype := .tInt },
    { name := "LOGS_PAGE_SIZE", aliasName := none, required := false,
      ftype := .tInt } ]

/-- The raw key/value pairs ingested from the environment sources
(environment variables merged with the `.env` file). -/
def RawConfig : Type := List (String × String)

/-- First raw value stored under exactly the given key. -/
def lookupRaw (raw : RawConfig) (k : String) : Option String :=
  List.lookup k raw

/-- The raw value bound to a field: the validation alias is consulted
first when one is declared, and the canonical field name is only the
fallback (enabled by `populate_by_name=True`); the first key present
wins. -/
def lookupField (raw : RawConfig) (f : FieldSpec) : Option String :=
  match f.aliasName with
  | some a =>
    match lookupRaw raw a with
    | some v => some v
    | none => lookupRaw raw f.name
  | none => lookupRaw raw f.name

/-- One entry of the aggregated `ValidationError`. -/
inductive BindError where
  | missingRequiredField (name : String)
  | typeCoercionError (name : String) (raw : String)
  deriving DecidableEq

/-- The errors a single field contributes: a missing-required error when no
key matches and the field has no default, a coercion error when the matched
raw value does not coerce to the field's type, nothing otherwise. -/
def fieldErrors (raw : RawConfig) (f : FieldSpec) : List BindError :=
  match lookupField raw f with
  | none => if f.required then [.missingRequiredField f.name] else []
  | some v => if coerceOk f.ftype v then [] else [.typeCoercionError f.name v]

/-- All errors collected across a schema, in declaration order — binding
never stops at the first failing field. -/
def collectErrors (raw : RawConfig) (sch : List FieldSpec) : List BindError :=
  sch.flatMap (fieldErrors raw)

/-- The aggregated errors of `Settings()` on the given raw sources. -/
def bindErrors (raw : RawConfig) : List BindError :=
  collectErrors raw settingsSchema

/-- Whether `Settings()` succeeds: it raises a single `ValidationError`
carrying every collected error exactly when at least one error exists. -/
def validateSettings (raw : RawConfig) : Except (List BindError) Unit :=
  match bindErrors raw with
  | [] => .ok ()
  | e :: es => .error (e :: es)

/-- The canonical name of a missing-required-field error, `none` for other
error kinds. -/
def missingName? : BindError → Option String
  | .missingRequiredField n => some n
  | .typeCoercionError _ _ => none

/-! ## The registry accessor

`get_settings` reads and writes the module-level global
`_settings_instance`, modelled as explicit state of type `Option Settings`.
The `load` argument stands for the `Settings()` construction (source read,
bind, validate, derive); its result is whatever that construction produces
for the process environment.  When the stored instance exists, `load` is
never consulted.  On a construction failure the accessor raises
(`SystemExit`) and the global keeps its `None` value. -/
def getSettings (load : Unit → Except (List BindError) Settings)
    (st : Option Settings) :
    Except (List BindError) Settings × Option Settings :=
  match st with
  | some s => (.ok s, some s)
  | none =>
    match load () with
    | .ok s => (.ok s, some s)
    | .error e => (.error e, none)

/-! ## Helper lemmas -/

/-- The missing-field names contributed by a single field: the field's own
name exactly when it is required and no source key matches. -/
theorem fieldErrors_missingNames (raw : RawConfig) (f : FieldSpec) :
    (fieldErrors raw f).filterMap missingName? =
      if f.required && (lookupField raw f).isNone then [f.name] else [] := by
  unfold fieldErrors
  rcases h : lookupField raw f with _ | v
  · by_cases hr : f.required <;> simp [hr, h, missingName?]
  · by_cases hc : coerceOk f.ftype v <;> simp [hc, h, missingName?]

/-- Collected over a schema, the missing-field errors name exactly the
required fields with no matching source key, in declaration order. -/
theorem collect_missingNames (raw : RawConfig) (sch : List FieldSpec) :
    (collectErrors raw sch).filterMap missingName? =
      (sch.filter fun f => f.required && (lookupField raw f).isNone).map
        FieldSpec.name := by
  induction sch with
  | nil => simp [collectErrors]
  | cons f t ih =>
    by_cases h : f.required && (lookupField raw f).isNone
    · simp only [collectErrors, List.flatMap_cons, List.filterMap_append,
        fieldErrors_missingNames, h, if_true, List.filter_cons]
      simpa [collectErrors] using ih
    · simp only [collectErrors, List.flatMap_cons, List.filterMap_append,
        fieldErrors_missingNames, h, if_false, List.filter_cons]
      simpa [collectErrors] using ih

/-- A field contributes no error exactly when it is neither a missing
required field nor carries an uncoercible raw value. -/
theorem fieldErrors_eq_nil_iff (raw : RawConfig) (f : FieldSpec) :
    fieldErrors raw f = [] ↔
      ¬((f.required = true ∧ lookupField raw f = none) ∨
        ∃ v, lookupField raw f = some v ∧ coerceOk f.ftype v = false) := by
  unfold fieldErrors
  rcases h : lookupField raw f with _ | v
  · by_cases hr : f.required <;> simp [hr, h]
  · by_cases hc : coerceOk f.ftype v <;> simp [hc, h]

/-- No error is collected over a schema iff no field contributes one. -/
theorem collectErrors_eq_nil_iff (raw : RawConfig) (sch : List FieldSpec) :
    collectErrors raw sch = [] ↔ ∀ f ∈ sch, fieldErrors raw f = [] := by
  simp [collectErrors, List.flatMap_eq_nil_iff]

/-! ## Claim theorems -/

/-- C1: validation of the settings model fails iff at least one required
field is missing or some bound raw value fails type coercion, and the
failure enumerates every violation at once: the missing-field errors in
the aggregated error list are exactly one `missingRequiredField` per
required schema field with no matching source key, naming that key, in
schema order — never only the first. -/
theorem validation_aggregates_all_violations (raw : RawConfig) :
    (bindErrors raw).filterMap missingName? =
      (settingsSchema.filter fun f =>
        f.required && (lookupField raw f).isNone).map FieldSpec.name
    ∧ ((validateSettings raw).isOk = false ↔
        ∃ f ∈ settingsSchema,
          (f.required = true ∧ lookupField raw f = none) ∨
          ∃ v, lookupField raw f = some v ∧ coerceOk f.ftype v = false) := by
  constructor
  · exact collect_missingNames raw settingsSchema
  · have hnil := collectErrors_eq_nil_iff raw settingsSchema
    have hiff : (validateSettings raw).isOk = false ↔ bindErrors raw ≠ [] := by
      unfold validateSettings
      rcases h : bindErrors raw with _ | ⟨e, es⟩ <;>
        simp [h, Except.isOk, Except.toBool]
    rw [hiff]
    unfold bindErrors
    rw [ne_eq, hnil]
    push_neg
    constructor
    · rintro ⟨f, hf, hne⟩
      exact ⟨f, hf, not_not.mp ((fieldErrors_eq_nil_iff raw f).not.mp hne)⟩
    · rintro ⟨f, hf, hv⟩
      exact ⟨f, hf, fun hnil2 =>
        ((fieldErrors_eq_nil_iff raw f).mp hnil2) hv⟩

/-- C2: registry accessor idempotence — once a first call to `get_settings`
succeeded (stored some instance), every subsequent call returns exactly the
stored instance with the state unchanged, for an arbitrary second loader:
the sources are not re-read and no new instance is constructed. -/
theorem get_settings_idempotent
    (load1 load2 : Unit → Except (List BindError) Settings)
    (s : Settings) (st1 : Option Settings)
    (h : getSettings load1 none = (.ok s, st1)) :
    getSettings load2 st1 = (.ok s, st1) ∧ st1 = some s := by
  unfold getSettings at h ⊢
  rcases hl : load1 () with e | s' <;> rw [hl, Prod.mk.injEq] at h
  · exact Except.noConfusion h.1
  · obtain ⟨h1, h2⟩ := h
    rw [Except.ok.injEq] at h1
    subst h1
    subst h2
    exact ⟨rfl, rfl⟩

/-- C2 witness: after a successful first call stored the instance, a second
call with a loader that would fail still returns the stored instance. -/
theorem get_settings_idempotent_witness :
    getSettings (fun _ => .error []) (some defaultSettings) =
      (.ok defaultSettings, some defaultSettings)
    ∧ (some defaultSettings : Option Settings) = some defaultSettings :=
  get_settings_idempotent (fun _ => .ok defaultSettings) (fun _ => .error [])
    defaultSettings (some defaultSettings) rfl

/-- C4: admin-ID parsing splits on commas, trims, keeps purely numeric
elements in order — `"1, 2, abc, 3"` parses to `[1, 2, 3]`, `""` and
`"abc"` parse to `[]` — and primary-admin selection returns the head of
the parsed list, `none` when it is empty, `1` on `[1, 2, 3]`. -/
theorem admin_ids_parsing_and_primary_selection :
    ({ defaultSettings with ADMIN_IDS_STR := "1, 2, abc, 3" } :
        Settings).ADMIN_IDS = [1, 2, 3]
    ∧ ({ defaultSettings with ADMIN_IDS_STR := "" } : Settings).ADMIN_IDS = []
    ∧ ({ defaultSettings with ADMIN_IDS_STR := "abc" } : Settings).ADMIN_IDS = []
    ∧ ({ defaultSettings with ADMIN_IDS_STR := "" } : Settings).PRIMARY_ADMIN_ID
        = none
    ∧ ({ defaultSettings with ADMIN_IDS_STR := "1, 2, abc, 3" } :
        Settings).PRIMARY_ADMIN_ID = some 1
    ∧ ∀ s : Settings, s.PRIMARY_ADMIN_ID = s.ADMIN_IDS.head? := by
  refine ⟨by decide, by decide, by decide, by decide, by decide, fun s => ?_⟩
  rcases h : s.ADMIN_IDS with _ | ⟨x, t⟩ <;>
    simp [Settings.PRIMARY_ADMIN_ID, h]

/-- C5 counterexample: with both the canonical key `ADMIN_IDS_STR` and its
alias `ADMIN_IDS` present carrying different values, the bound value is the
alias's value `"2"`, not the canonical key's value `"1"` — the claim that
the canonical name wins is false at this input. -/
theorem alias_precedence_counterexample :
    ¬(lookupField [("ADMIN_IDS_STR", "1"), ("ADMIN_IDS", "2")] adminIdsStrSpec
        = lookupRaw [("ADMIN_IDS_STR", "1"), ("ADMIN_IDS", "2")]
            "ADMIN_IDS_STR")
    ∧ lookupField [("ADMIN_IDS_STR", "1"), ("ADMIN_IDS", "2")] adminIdsStrSpec
        = some "2"
    ∧ lookupRaw [("ADMIN_IDS_STR", "1"), ("ADMIN_IDS", "2")] "ADMIN_IDS_STR"
        = some "1"
    ∧ adminIdsStrSpec ∈ settingsSchema := by
  refine ⟨by decide, by decide, by decide, by decide⟩

/-- C5 amended: for every schema field with a declared alias, whenever the
raw source contains the alias key, the bound value is the one under the
alias — the validation alias is consulted before the canonical field name,
which is only a fallback. -/
theorem alias_precedence_amended (raw : RawConfig) (f : FieldSpec)
    (a v : String) (_hf : f ∈ settingsSchema) (ha : f.aliasName = some a)
    (hv : lookupRaw raw a = some v) :
    lookupField raw f = some v := by
  simp [lookupField, ha, hv]

/-- C5 amended witness: the alias value binds on the counterexample input. -/
theorem alias_precedence_amended_witness :
    lookupField [("ADMIN_IDS_STR", "1"), ("ADMIN_IDS", "2")] adminIdsStrSpec
      = some "2" :=
  alias_precedence_amended [("ADMIN_IDS_STR", "1"), ("ADMIN_IDS", "2")]
    adminIdsStrSpec "ADMIN_IDS" "2" (by decide) rfl rfl

/-- C6: gigabyte-to-byte conversion — `5.0` GB yields exactly
`5368709120` bytes, an absent value yields `0`, `0` and `-2` yield `0`,
and the result is never negative for any settings value. -/
theorem trial_traffic_limit_conversion :
    ({ defaultSettings with TRIAL_TRAFFIC_LIMIT_GB := some 5 } :
        Settings).trial_traffic_limit_bytes = 5368709120
    ∧ ({ defaultSettings with TRIAL_TRAFFIC_LIMIT_GB := none } :
        Settings).trial_traffic_limit_bytes = 0
    ∧ ({ defaultSettings with TRIAL_TRAFFIC_LIMIT_GB := some 0 } :
        Settings).trial_traffic_limit_bytes = 0
    ∧ ({ defaultSettings with TRIAL_TRAFFIC_LIMIT_GB := some (-2) } :
        Settings).trial_traffic_limit_bytes = 0
    ∧ ∀ s : Settings, 0 ≤ s.trial_traffic_limit_bytes := by
  refine ⟨by norm_num [Settings.trial_traffic_limit_bytes],
    by norm_num [Settings.trial_traffic_limit_bytes],
    by norm_num [Settings.trial_traffic_limit_bytes],
    by norm_num [Settings.trial_traffic_limit_bytes], fun s => ?_⟩
  unfold Settings.trial_traffic_limit_bytes
  rcases s.TRIAL_TRAFFIC_LIMIT_GB with _ | g
  · simp
  · by_cases hg : g ≤ 0
    · simp [hg]
    · push_neg at hg
      simp only [hg.not_le, if_false]
      exact Int.floor_nonneg.mpr (by positivity)

/-- C7: for every configuration with exactly the 1-month and 12-month
price fields set and the 3- and 6-month fields absent, the
subscription-options table has key sequence exactly `[1, 12]` — absent
tiers are omitted entirely, not zero-filled. -/
theorem subscription_options_present_tiers_only (s : Settings)
    (v1 v12 : Int)
    (h1 : s.PRICE_1_MONTH = some v1) (h3 : s.PRICE_3_MONTHS = none)
    (h6 : s.PRICE_6_MONTHS = none) (h12 : s.PRICE_12_MONTHS = some v12) :
    s.subscription_options.map Prod.fst = [1, 12] := by
  simp [Settings.subscription_options, h1, h3, h6, h12]

/-- C7 witness: a concrete configuration with only the 1- and 12-month
prices set produces the key sequence `[1, 12]`. -/
theorem subscription_options_present_tiers_only_witness :
    ({ defaultSettings with
        PRICE_1_MONTH := some 15000
        PRICE_12_MONTHS := some 90000 } :
      Settings).subscription_options.map Prod.fst = [1, 12] :=
  subscription_options_present_tiers_only _ 15000 90000 rfl rfl rfl rfl

/-- C8: webhook URL composition — base `"https://example.com/"` composes to
`"https://example.com/webhook/yookassa"` with no double slash (likewise
with several trailing slashes), and an absent base yields an absent
composed URL, not an error. -/
theorem yookassa_webhook_url_composition :
    ({ defaultSettings with
        YOOKASSA_WEBHOOK_BASE_URL := some "https://example.com/" } :
      Settings).yookassa_full_webhook_url
        = some "https://example.com/webhook/yookassa"
    ∧ ({ defaultSettings with
        YOOKASSA_WEBHOOK_BASE_URL := some "https://example.com///" } :
      Settings).yookassa_full_webhook_url
        = some "https://example.com/webhook/yookassa"
    ∧ ({ defaultSettings with YOOKASSA_WEBHOOK_BASE_URL := none } :
      Settings).yookassa_full_webhook_url = none := by
  refine ⟨by decide, by decide, by decide⟩

/-- C9 (implicit): for every tier whose price field is set, the value the
subscription-options table stores under that tier is the integer price
divided by 100 — the raw smallest-subunit integer is never exposed. -/
theorem subscription_options_price_scaling (s : Settings) (v : Int) :
    (s.PRICE_1_MONTH = some v →
      s.subscription_options.lookup 1 = some ((v : ℚ) / 100))
    ∧ (s.PRICE_3_MONTHS = some v →
      s.subscription_options.lookup 3 = some ((v : ℚ) / 100))
    ∧ (s.PRICE_6_MONTHS = some v →
      s.subscription_options.lookup 6 = some ((v : ℚ) / 100))
    ∧ (s.PRICE_12_MONTHS = some v →
      s.subscription_options.lookup 12 = some ((v : ℚ) / 100)) := by
  refine ⟨fun h1 => ?_, fun h3 => ?_, fun h6 => ?_, fun h12 => ?_⟩
  · simp [Settings.subscription_options, h1, List.lookup]
  · rcases h1 : s.PRICE_1_MONTH with _ | p1 <;>
      simp [Settings.subscription_options, h1, h3, List.lookup]
  · rcases h1 : s.PRICE_1_MONTH with _ | p1 <;>
      rcases h3 : s.PRICE_3_MONTHS with _ | p3 <;>
      simp [Settings.subscription_options, h1, h3, h6, List.lookup]
  · rcases h1 : s.PRICE_1_MONTH with _ | p1 <;>
      rcases h3 : s.PRICE_3_MONTHS with _ | p3 <;>
      rcases h6 : s.PRICE_6_MONTHS with _ | p6 <;>
      simp [Settings.subscription_options, h1, h3, h6, h12, List.lookup]

/-- C9 witness: price `15000` is stored as `15000 / 100` under tier 1. -/
theorem subscription_options_price_scaling_witness :
    ({ defaultSettings with
        PRICE_1_MONTH := some 15000
        PRICE_3_MONTHS := some 15000
        PRICE_6_MONTHS := some 15000
        PRICE_12_MONTHS := some 15000 } :
      Settings).subscription_options.lookup 1 = some ((15000 : ℚ) / 100) :=
  (subscription_options_price_scaling _ 15000).1 rfl

/-- C10 (implicit): every element of the parsed admin-ID list is
non-negative for every input string — signed tokens such as `"-5"` and
`"+5"` fail the purely-numeric filter and are dropped — and hence a
negative primary admin ID can never be selected. -/
theorem admin_ids_nonnegative :
    (∀ (s : Settings), ∀ x ∈ s.ADMIN_IDS, 0 ≤ x)
    ∧ ({ defaultSettings with ADMIN_IDS_STR := "-5, +5" } :
        Settings).ADMIN_IDS = []
    ∧ ∀ (s : Settings) (p : Int), s.PRIMARY_ADMIN_ID = some p → 0 ≤ p := by
  have hmem : ∀ (s : Settings), ∀ x ∈ s.ADMIN_IDS, 0 ≤ x := by
    intro s x hx
    unfold Settings.ADMIN_IDS at hx
    by_cases ht : pyTruthy s.ADMIN_IDS_STR
    · rw [if_pos ht] at hx
      obtain ⟨t, _, hf⟩ := List.mem_filterMap.mp hx
      by_cases hd : pyIsDigit (pyStrip t)
      · rw [if_pos hd, Option.some_inj] at hf
        rw [← hf]
        exact Int.natCast_nonneg _
      · rw [if_neg hd] at hf
        cases hf
    · rw [if_neg ht] at hx
      cases hx
  refine ⟨hmem, by decide, fun s p hp => ?_⟩
  unfold Settings.PRIMARY_ADMIN_ID at hp
  rcases h : s.ADMIN_IDS with _ | ⟨x, t⟩ <;> rw [h] at hp
  · cases hp
  · rw [Option.some_inj] at hp
    rw [← hp]
    exact hmem s x (h ▸ List.mem_cons_self x t)

/-- C10 witness: concrete parsed elements and a concrete primary admin are
non-negative. -/
theorem admin_ids_nonnegative_witness : (0 : Int) ≤ 5 ∧ (0 : Int) ≤ 1 :=
  ⟨admin_ids_nonnegative.1 { defaultSettings with ADMIN_IDS_STR := "5" } 5
      (by decide),
   admin_ids_nonnegative.2.2 { defaultSettings with ADMIN_IDS_STR := "1, 2" }
      1 (by decide)⟩
